import Mathlib

/-!
User Management System, `src/src/App.jsx`

A shallow embedding of the `UserManagementApp` component: its six `useState`
slots become the fields of `AppState`, and each handler becomes a function from
the state captured by the handler's closure and the outcome of its single
`fetch` call to the state after the handler's `set...` calls.
-/

namespace UserManagement

/-- The constant `API_URL` (App.jsx line 11). -/
def API_URL : String := "https://jsonplaceholder.typicode.com/users"

/-- A record as the remote API returns it: `id`, `name`, `email`, possibly a
`dateOfBirth`, and whatever other properties the JSON object carries. -/
structure ApiUser where
  id : Int
  name : String
  email : String
  dateOfBirth : Option String
  extra : List (String × String)
deriving DecidableEq, Repr

/-- A record of the local list. Every record stored in `users` is built by an
object spread that ends in a string `dateOfBirth` (lines 51, 77, 93). -/
structure UserRecord where
  id : Int
  name : String
  email : String
  dateOfBirth : String
  extra : List (String × String)
deriving DecidableEq, Repr

/-- The object literal given to `setAlert`: `{ message, type }`. -/
structure Alert where
  message : String
  type : String
deriving DecidableEq, Repr

/-- The six `useState` slots of the component (lines 25-30). -/
structure AppState where
  users : List UserRecord
  name : String
  email : String
  dateOfBirth : String
  editingUser : Option UserRecord
  alert : Option Alert
deriving DecidableEq, Repr

/-- The state on first render: `useState([])`, `useState('')` three times,
`useState(null)` twice. -/
def initialState : AppState :=
  { users := [], name := "", email := "", dateOfBirth := "",
    editingUser := none, alert := none }

/-- A `Response` as far as the handlers read it: `response.ok`, and what
`await response.json()` yields (`none` when that promise rejects or the body
does not have the expected shape, so that using it throws). -/
structure Response (α : Type) where
  ok : Bool
  json : Option α
deriving DecidableEq, Repr

/-- What `await fetch(...)` does: the promise rejects (a transport error is
thrown into the `try`), or it resolves to a response. -/
inductive FetchOutcome (α : Type) where
  | rejected : FetchOutcome α
  | resolved (response : Response α) : FetchOutcome α
deriving DecidableEq, Repr

/-- The request fails: `fetch` throws, or `!response.ok` holds. -/
def FetchOutcome.failed {α : Type} : FetchOutcome α → Bool
  | .rejected => true
  | .resolved r => !r.ok

/-- The JSON body handed to `JSON.stringify` (lines 65-70 and 82-86). -/
structure RequestBody where
  id : Option Int
  name : String
  email : String
  dateOfBirth : String
deriving DecidableEq, Repr

/-- The arguments of a `fetch` call. -/
structure Request where
  method : String
  url : String
  body : Option RequestBody
deriving DecidableEq, Repr

/-- The object spread `{ ...user, dateOfBirth: d }`: every property of `user`,
with `dateOfBirth` written last and so overriding the one of `user`. -/
def withDateOfBirth (user : ApiUser) (d : String) : UserRecord :=
  { id := user.id, name := user.name, email := user.email,
    dateOfBirth := d, extra := user.extra }

/-- The body of `fetchUsers` (lines 46-57) after `await fetch(API_URL)`. -/
def fetchUsers (s : AppState) (net : FetchOutcome (List ApiUser)) : AppState :=
  let onCatch : AppState :=
    { s with alert := some { message := "Failed to fetch users. Please try again.",
                             type := "error" } }
  match net with
  | .rejected => onCatch
  | .resolved response =>
    if !response.ok then onCatch
    else
      match response.json with
      | none => onCatch
      | some data =>
        let usersWithDOB := data.map (fun user => withDateOfBirth user "2001-01-01")
        { s with users := usersWithDOB }

/-- The body of `handleSubmit` (lines 59-104), `net` being the outcome of the
`fetch` call of the branch taken. A `throw` in either branch skips the four
resets of lines 96-99 and runs the `catch` block. -/
def handleSubmit (s : AppState) (net : FetchOutcome ApiUser) : AppState :=
  let onCatch : AppState :=
    { s with alert := some { message := "Failed to save user. Please try again.",
                             type := "error" } }
  let reset (t : AppState) : AppState :=
    { t with name := "", email := "", dateOfBirth := "", editingUser := none }
  match s.editingUser with
  | some editingUser =>
    match net with
    | .rejected => onCatch
    | .resolved response =>
      if !response.ok then onCatch
      else
        match response.json with
        | none => onCatch
        | some updatedUser =>
          reset
            { s with
              users := s.users.map (fun user =>
                if user.id = editingUser.id then withDateOfBirth updatedUser s.dateOfBirth
                else user),
              alert := some { message := "User updated successfully (simulated)",
                              type := "success" } }
  | none =>
    match net with
    | .rejected => onCatch
    | .resolved response =>
      if !response.ok then onCatch
      else
        match response.json with
        | none => onCatch
        | some newUser =>
          reset
            { s with
              users := s.users ++ [withDateOfBirth newUser s.dateOfBirth],
              alert := some { message := "User added successfully (simulated)",
                              type := "success" } }

/-- The function `handleEdit` (lines 106-111). `user.dateOfBirth || ''` yields
`''` when `user.dateOfBirth` is falsy, which for a string means empty. -/
def handleEdit (s : AppState) (user : UserRecord) : AppState :=
  { s with
    editingUser := some user,
    name := user.name,
    email := user.email,
    dateOfBirth := if user.dateOfBirth = "" then "" else user.dateOfBirth }

/-- The body of `handleDelete` (lines 113-125) after its `await fetch(...)`;
the response body is never read. -/
def handleDelete (s : AppState) (id : Int) (net : FetchOutcome Unit) : AppState :=
  let onCatch : AppState :=
    { s with alert := some { message := "Failed to delete user. Please try again.",
                             type := "error" } }
  match net with
  | .rejected => onCatch
  | .resolved response =>
    if !response.ok then onCatch
    else
      { s with
        users := s.users.filter (fun user => user.id ≠ id),
        alert := some { message := "User deleted successfully (simulated)",
                        type := "success" } }

/-- The `onClose` callback of the banner (line 134) and the timer callback
(line 39): `setAlert(null)`. -/
def dismissAlert (s : AppState) : AppState :=
  { s with alert := none }

/-- The `fetch` call of `fetchUsers` (line 48). -/
def fetchUsersRequest : Request :=
  { method := "GET", url := API_URL, body := none }

/-- The `fetch` call of `handleSubmit`: the `PUT` of lines 63-74 when
`editingUser` is set, the `POST` of lines 80-90 otherwise. -/
def handleSubmitRequest (s : AppState) : Request :=
  match s.editingUser with
  | some editingUser =>
    { method := "PUT", url := API_URL ++ "/" ++ toString editingUser.id,
      body := some { id := some editingUser.id, name := s.name, email := s.email,
                     dateOfBirth := s.dateOfBirth } }
  | none =>
    { method := "POST", url := API_URL,
      body := some { id := none, name := s.name, email := s.email,
                     dateOfBirth := s.dateOfBirth } }

/-- The `fetch` call of `handleDelete` (lines 115-117). -/
def handleDeleteRequest (id : Int) : Request :=
  { method := "DELETE", url := API_URL ++ "/" ++ toString id, body := none }

/-- What the user or the runtime can make the component do, together with the
outcome of the network call the handler awaits, if it makes one. -/
inductive Event where
  | fetchUsers (net : FetchOutcome (List ApiUser))
  | submit (net : FetchOutcome ApiUser)
  | edit (user : UserRecord)
  | delete (id : Int) (net : FetchOutcome Unit)
  | dismiss

/-- The handler run by each event. -/
def step (s : AppState) : Event → AppState
  | .fetchUsers net => fetchUsers s net
  | .submit net => handleSubmit s net
  | .edit user => handleEdit s user
  | .delete id net => handleDelete s id net
  | .dismiss => dismissAlert s

/-- The network requests a handler issues while handling an event. -/
def requests (s : AppState) : Event → List Request
  | .fetchUsers _ => [fetchUsersRequest]
  | .submit _ => [handleSubmitRequest s]
  | .edit _ => []
  | .delete id _ => [handleDeleteRequest id]
  | .dismiss => []

/-- The ids of the local list, in list order. -/
def ids (s : AppState) : List Int := s.users.map (fun user => user.id)

/-- The request succeeds as far as `handleDelete` is concerned: `response.ok`. -/
def deleted (body : Option Unit) : FetchOutcome Unit :=
  .resolved { ok := true, json := body }

/-- The request succeeds and `response.json()` yields `data`. -/
def succeeded {α : Type} (data : α) : FetchOutcome α :=
  .resolved { ok := true, json := some data }

/-- The user list, the form draft (`name`, `email`, `dateOfBirth`) and the
editing target of `t` are those of `s`. -/
def sameListDraftTarget (s t : AppState) : Prop :=
  t.users = s.users ∧ t.name = s.name ∧ t.email = s.email
    ∧ t.dateOfBirth = s.dateOfBirth ∧ t.editingUser = s.editingUser

/-- The notification slot holds one alert, of type `"error"`. -/
def errorAlert (s : AppState) : Prop :=
  ∃ a : Alert, s.alert = some a ∧ a.type = "error"

/-- The notification slot holds one alert, of type `"success"`. -/
def successAlert (s : AppState) : Prop :=
  ∃ a : Alert, s.alert = some a ∧ a.type = "success"

/-! Helper lemmas -/

theorem failed_fetchUsers (s : AppState) (net : FetchOutcome (List ApiUser))
    (h : net.failed = true) :
    fetchUsers s net =
      { s with alert := some { message := "Failed to fetch users. Please try again.",
                               type := "error" } } := by
  cases net with
  | rejected => rfl
  | resolved r =>
    have hok : r.ok = false := by simpa [FetchOutcome.failed] using h
    simp [fetchUsers, hok]

theorem failed_handleSubmit (s : AppState) (net : FetchOutcome ApiUser)
    (h : net.failed = true) :
    handleSubmit s net =
      { s with alert := some { message := "Failed to save user. Please try again.",
                               type := "error" } } := by
  cases net with
  | rejected => cases hR : s.editingUser <;> simp [handleSubmit, hR]
  | resolved r =>
    have hok : r.ok = false := by simpa [FetchOutcome.failed] using h
    cases hR : s.editingUser <;> simp [handleSubmit, hR, hok]

theorem failed_handleDelete (s : AppState) (id : Int) (net : FetchOutcome Unit)
    (h : net.failed = true) :
    handleDelete s id net =
      { s with alert := some { message := "Failed to delete user. Please try again.",
                               type := "error" } } := by
  cases net with
  | rejected => rfl
  | resolved r =>
    have hok : r.ok = false := by simpa [FetchOutcome.failed] using h
    simp [handleDelete, hok]

theorem users_handleDelete_deleted (s : AppState) (id : Int) (body : Option Unit) :
    (handleDelete s id (deleted body)).users
      = s.users.filter (fun user => user.id ≠ id) := by
  simp [handleDelete, deleted]

theorem ids_filter (l : List UserRecord) (id : Int) :
    (l.filter (fun user => user.id ≠ id)).map (fun user => user.id)
      = (l.map (fun user => user.id)).filter (fun i => i ≠ id) := by
  induction l with
  | nil => rfl
  | cons a l ih =>
    simp only [ne_eq, decide_not] at ih
    by_cases h : a.id = id <;> simp [List.filter_cons, h, ih]

theorem users_update (s : AppState) (R : UserRecord) (apiUser : ApiUser)
    (hR : s.editingUser = some R) :
    (handleSubmit s (succeeded apiUser)).users
      = s.users.map (fun user =>
          if user.id = R.id then withDateOfBirth apiUser s.dateOfBirth else user) := by
  simp [handleSubmit, succeeded, hR]

theorem users_create (s : AppState) (apiUser : ApiUser) (hR : s.editingUser = none) :
    (handleSubmit s (succeeded apiUser)).users
      = s.users ++ [withDateOfBirth apiUser s.dateOfBirth] := by
  simp [handleSubmit, succeeded, hR]

theorem users_handleSubmit_no_body (s : AppState) (ok : Bool) :
    (handleSubmit s (.resolved { ok := ok, json := none })).users = s.users := by
  cases hR : s.editingUser <;> cases ok <;> simp [handleSubmit, hR]

theorem users_handleDelete_sublist (s : AppState) (id : Int) (net : FetchOutcome Unit) :
    List.Sublist (handleDelete s id net).users s.users := by
  cases net with
  | rejected => exact List.Sublist.refl _
  | resolved r =>
    cases hok : r.ok
    · simp [handleDelete, hok]
    · simp [handleDelete, hok]

theorem ids_update (users : List UserRecord) (r : Int) (new : UserRecord) :
    (users.map (fun user => if user.id = r then new else user)).map (fun user => user.id)
      = (users.map (fun user => user.id)).map (fun i => if i = r then new.id else i) := by
  rw [List.map_map, List.map_map]
  apply List.map_congr_left
  intro user _
  by_cases h : user.id = r <;> simp [h]

theorem nodup_replace_id (l : List Int) (r a : Int) (hl : l.Nodup)
    (ha : a = r ∨ a ∉ l) :
    (l.map (fun i => if i = r then a else i)).Nodup := by
  apply List.Nodup.map_on _ hl
  intro x hx y hy hxy
  rcases ha with ha | ha
  · subst ha
    by_cases h1 : x = a <;> by_cases h2 : y = a <;> simp_all
  · by_cases h1 : x = r <;> by_cases h2 : y = r
    · rw [h1, h2]
    · simp only [h1, h2, if_true, if_false] at hxy
      exact absurd (hxy ▸ hy) ha
    · simp only [h1, h2, if_true, if_false] at hxy
      exact absurd (hxy ▸ hx) ha
    · simp only [h1, h2, if_false] at hxy
      exact hxy

/-! Claims -/

/-- C1: after a successful `handleDelete(id)` the list is the original list with
exactly the records whose id equals `id` removed: it is the filtered list, an
order-preserving sublist of the original, every record with another id occurs
as often as before, no record with the given id remains, and a list with ids
`[3,5,7]` becomes one with ids `[3,7]` when 5 is deleted. -/
theorem C1_handleDelete_removes_by_id (s : AppState) (id : Int) (body : Option Unit) :
    (handleDelete s id (deleted body)).users
        = s.users.filter (fun user => user.id ≠ id)
      ∧ List.Sublist (handleDelete s id (deleted body)).users s.users
      ∧ (∀ user : UserRecord, user.id ≠ id →
          (handleDelete s id (deleted body)).users.count user = s.users.count user)
      ∧ (∀ user ∈ (handleDelete s id (deleted body)).users, user.id ≠ id)
      ∧ (ids s = [3, 5, 7] → id = 5 →
          ids (handleDelete s id (deleted body)) = [3, 7]) := by
  rw [users_handleDelete_deleted]
  refine ⟨rfl, List.filter_sublist _, ?_, ?_, ?_⟩
  · intro user hne
    rw [List.count_filter]
    simpa using hne
  · intro user hmem
    simpa using (List.mem_filter.mp hmem).2
  · intro hids hid
    subst hid
    unfold ids at hids ⊢
    rw [users_handleDelete_deleted]
    rw [ids_filter, hids]
    decide

/-- C1 at a concrete list with ids 3, 5, 7. -/
theorem C1_handleDelete_removes_by_id_witness :
    ids (handleDelete
          { initialState with
            users := [⟨3, "a", "a@x", "2001-01-01", []⟩, ⟨5, "b", "b@x", "2001-01-01", []⟩,
                      ⟨7, "c", "c@x", "2001-01-01", []⟩] }
          5 (deleted none)) = [3, 7] :=
  (C1_handleDelete_removes_by_id
      { initialState with
        users := [⟨3, "a", "a@x", "2001-01-01", []⟩, ⟨5, "b", "b@x", "2001-01-01", []⟩,
                  ⟨7, "c", "c@x", "2001-01-01", []⟩] }
      5 none).2.2.2.2 rfl rfl

/-- C2: when the request of `fetchUsers`, of `handleSubmit` (in create mode and
in update mode alike, whatever `editingUser` is) or of `handleDelete` fails,
by a thrown transport error or a non-ok response, the user list, the form draft
and the editing target are as before and the notification is one alert of type
error. -/
theorem C2_failure_keeps_state (s : AppState) (id : Int)
    (netF : FetchOutcome (List ApiUser)) (netS : FetchOutcome ApiUser)
    (netD : FetchOutcome Unit)
    (hF : netF.failed = true) (hS : netS.failed = true) (hD : netD.failed = true) :
    (sameListDraftTarget s (fetchUsers s netF) ∧ errorAlert (fetchUsers s netF))
      ∧ (sameListDraftTarget s (handleSubmit s netS) ∧ errorAlert (handleSubmit s netS))
      ∧ (sameListDraftTarget s (handleDelete s id netD)
          ∧ errorAlert (handleDelete s id netD)) := by
  rw [failed_fetchUsers s netF hF, failed_handleSubmit s netS hS,
    failed_handleDelete s id netD hD]
  simp [sameListDraftTarget, errorAlert]

/-- C2 at a state in update mode, with a thrown error, a non-ok response with a
body, and a thrown error. -/
theorem C2_failure_keeps_state_witness :
    sameListDraftTarget
        { users := [⟨1, "a", "a@x", "2001-01-01", []⟩], name := "n", email := "e",
          dateOfBirth := "2000-02-02",
          editingUser := some ⟨1, "a", "a@x", "2001-01-01", []⟩, alert := none }
        (handleSubmit
          { users := [⟨1, "a", "a@x", "2001-01-01", []⟩], name := "n", email := "e",
            dateOfBirth := "2000-02-02",
            editingUser := some ⟨1, "a", "a@x", "2001-01-01", []⟩, alert := none }
          (.resolved ⟨false, some ⟨1, "n", "e", none, []⟩⟩)) :=
  (C2_failure_keeps_state
      { users := [⟨1, "a", "a@x", "2001-01-01", []⟩], name := "n", email := "e",
        dateOfBirth := "2000-02-02",
        editingUser := some ⟨1, "a", "a@x", "2001-01-01", []⟩, alert := none }
      1 .rejected (.resolved ⟨false, some ⟨1, "n", "e", none, []⟩⟩) .rejected
      rfl rfl rfl).2.1.1

/-- C3: a successful update (`editingUser` is `R`, the response is ok and its
body is `apiUser`) yields a list of the same length in which, at every
position, a record whose id differs from `R.id` is the record that was there,
and a record whose id equals `R.id` is replaced by the response with its
`dateOfBirth` set to the drafted one. -/
theorem C3_update_replaces_matching (s : AppState) (R : UserRecord) (apiUser : ApiUser)
    (hR : s.editingUser = some R) :
    (handleSubmit s (succeeded apiUser)).users.length = s.users.length
      ∧ (∀ (i : Nat) (user : UserRecord), s.users[i]? = some user →
          (user.id ≠ R.id → (handleSubmit s (succeeded apiUser)).users[i]? = some user)
          ∧ (user.id = R.id → (handleSubmit s (succeeded apiUser)).users[i]?
              = some { id := apiUser.id, name := apiUser.name, email := apiUser.email,
                       dateOfBirth := s.dateOfBirth, extra := apiUser.extra })) := by
  rw [users_update s R apiUser hR]
  refine ⟨List.length_map _ _, ?_⟩
  intro i user hi
  rw [List.getElem?_map, hi]
  constructor
  · intro hne
    simp [hne]
  · intro heq
    simp [heq, withDateOfBirth]

/-- C3 at a two-record list whose second record is being edited. -/
theorem C3_update_replaces_matching_witness :
    (handleSubmit
        { users := [⟨1, "a", "a@x", "2001-01-01", []⟩, ⟨2, "b", "b@x", "2001-01-01", []⟩],
          name := "n", email := "e", dateOfBirth := "2000-02-02",
          editingUser := some ⟨2, "b", "b@x", "2001-01-01", []⟩, alert := none }
        (succeeded ⟨2, "n", "e", none, []⟩)).users.length = 2 :=
  (C3_update_replaces_matching
      { users := [⟨1, "a", "a@x", "2001-01-01", []⟩, ⟨2, "b", "b@x", "2001-01-01", []⟩],
        name := "n", email := "e", dateOfBirth := "2000-02-02",
        editingUser := some ⟨2, "b", "b@x", "2001-01-01", []⟩, alert := none }
      ⟨2, "b", "b@x", "2001-01-01", []⟩ ⟨2, "n", "e", none, []⟩ rfl).1

/-- C4: a successful create (`editingUser` is absent, the response is ok and
its body is `apiUser`) yields the old list followed by exactly one record, the
response with its `dateOfBirth` overridden by the drafted one: it carries the
id of the response, the length grows by one and every earlier record stays at
its position. -/
theorem C4_create_appends_one (s : AppState) (apiUser : ApiUser)
    (hR : s.editingUser = none) :
    (handleSubmit s (succeeded apiUser)).users
        = s.users ++ [{ id := apiUser.id, name := apiUser.name, email := apiUser.email,
                        dateOfBirth := s.dateOfBirth, extra := apiUser.extra }]
      ∧ (handleSubmit s (succeeded apiUser)).users.length = s.users.length + 1
      ∧ (∀ (i : Nat) (user : UserRecord), s.users[i]? = some user →
          (handleSubmit s (succeeded apiUser)).users[i]? = some user)
      ∧ ((handleSubmit s (succeeded apiUser)).users[s.users.length]?).map
            (fun user => (user.id, user.dateOfBirth))
          = some (apiUser.id, s.dateOfBirth) := by
  rw [users_create s apiUser hR]
  refine ⟨rfl, by simp, ?_, by simp [withDateOfBirth]⟩
  intro i user hi
  have hlt : i < s.users.length := by
    by_contra hge
    rw [List.getElem?_eq_none (Nat.le_of_not_lt hge)] at hi
    cases hi
  rw [List.getElem?_append_left hlt, hi]

/-- C4 at a one-record list; the response carries a `dateOfBirth` of its own. -/
theorem C4_create_appends_one_witness :
    (handleSubmit
        { users := [⟨1, "a", "a@x", "2001-01-01", []⟩],
          name := "n", email := "e", dateOfBirth := "2000-02-02",
          editingUser := none, alert := none }
        (succeeded ⟨11, "n", "e", some "1999-09-09", []⟩)).users
      = [⟨1, "a", "a@x", "2001-01-01", []⟩] ++ [⟨11, "n", "e", "2000-02-02", []⟩] :=
  (C4_create_appends_one
      { users := [⟨1, "a", "a@x", "2001-01-01", []⟩],
        name := "n", email := "e", dateOfBirth := "2000-02-02",
        editingUser := none, alert := none }
      ⟨11, "n", "e", some "1999-09-09", []⟩ rfl).1

/-- C5: a successful list fetch whose body is `data` replaces the list,
whatever it was, by as many records as `data` has, in the order of `data`, each
the returned record with `dateOfBirth` set to `"2001-01-01"`, whatever
`dateOfBirth` the response carried, and its other fields unchanged. -/
theorem C5_fetchUsers_replaces_list (s : AppState) (data : List ApiUser) :
    (fetchUsers s (succeeded data)).users.length = data.length
      ∧ (∀ (i : Nat) (user : ApiUser), data[i]? = some user →
          (fetchUsers s (succeeded data)).users[i]?
            = some { id := user.id, name := user.name, email := user.email,
                     dateOfBirth := "2001-01-01", extra := user.extra })
      ∧ (∀ s2 : AppState,
          (fetchUsers s2 (succeeded data)).users = (fetchUsers s (succeeded data)).users) := by
  have hu : ∀ t : AppState, (fetchUsers t (succeeded data)).users
      = data.map (fun user => withDateOfBirth user "2001-01-01") := by
    intro t
    simp [fetchUsers, succeeded]
  refine ⟨by rw [hu s, List.length_map], ?_, fun s2 => by rw [hu s2, hu s]⟩
  intro i user hi
  rw [hu s, List.getElem?_map, hi]
  rfl

/-- C5 at a two-record response whose first record carries a `dateOfBirth`. -/
theorem C5_fetchUsers_replaces_list_witness :
    (fetchUsers
        { initialState with users := [⟨9, "z", "z@x", "1990-01-01", []⟩] }
        (succeeded [⟨1, "a", "a@x", some "1980-05-05", [("phone", "1")]⟩,
                    ⟨2, "b", "b@x", none, []⟩])).users[0]?
      = some ⟨1, "a", "a@x", "2001-01-01", [("phone", "1")]⟩ :=
  (C5_fetchUsers_replaces_list
      { initialState with users := [⟨9, "z", "z@x", "1990-01-01", []⟩] }
      [⟨1, "a", "a@x", some "1980-05-05", [("phone", "1")]⟩, ⟨2, "b", "b@x", none, []⟩]).2.1
    0 ⟨1, "a", "a@x", some "1980-05-05", [("phone", "1")]⟩ rfl

/-- C6, as stated, fails: from a list with the single id 11 a successful create
whose response carries id 11 yields ids `[11, 11]`; and from a list with ids
`[1, 2]`, editing the record with id 1, a successful update whose response
carries id 2 yields ids `[2, 2]`. -/
theorem C6_ids_not_kept_distinct :
    ((ids { initialState with users := [⟨11, "a", "a@x", "2000-02-02", []⟩] }).Nodup
      ∧ ids (step { initialState with users := [⟨11, "a", "a@x", "2000-02-02", []⟩] }
              (.submit (succeeded ⟨11, "b", "b@x", none, []⟩))) = [11, 11]
      ∧ ¬ (ids (step { initialState with users := [⟨11, "a", "a@x", "2000-02-02", []⟩] }
              (.submit (succeeded ⟨11, "b", "b@x", none, []⟩)))).Nodup)
    ∧ ((ids { initialState with
              users := [⟨1, "a", "a@x", "2001-01-01", []⟩, ⟨2, "b", "b@x", "2001-01-01", []⟩],
              editingUser := some ⟨1, "a", "a@x", "2001-01-01", []⟩ }).Nodup
      ∧ ids (step { initialState with
              users := [⟨1, "a", "a@x", "2001-01-01", []⟩, ⟨2, "b", "b@x", "2001-01-01", []⟩],
              editingUser := some ⟨1, "a", "a@x", "2001-01-01", []⟩ }
              (.submit (succeeded ⟨2, "c", "c@x", none, []⟩))) = [2, 2]
      ∧ ¬ (ids (step { initialState with
              users := [⟨1, "a", "a@x", "2001-01-01", []⟩, ⟨2, "b", "b@x", "2001-01-01", []⟩],
              editingUser := some ⟨1, "a", "a@x", "2001-01-01", []⟩ }
              (.submit (succeeded ⟨2, "c", "c@x", none, []⟩)))).Nodup) := by
  refine ⟨⟨by decide, rfl, ?_⟩, ⟨by decide, rfl, ?_⟩⟩
  · show ¬ ([11, 11] : List Int).Nodup
    decide
  · show ¬ ([2, 2] : List Int).Nodup
    decide

/-- C6, amended: from a list with pairwise distinct ids, the ids stay pairwise
distinct after an edit request, a dismissal, a delete (successful or failed), a
submit whose request fails or whose response has no usable body, a successful
create whose response id is not yet in the list, and a successful update whose
response id equals the id of the editing target or is not yet in the list. -/
theorem C6_ids_stay_distinct (s : AppState) (hs : (ids s).Nodup) :
    (∀ user : UserRecord, (ids (step s (.edit user))).Nodup)
      ∧ (ids (step s .dismiss)).Nodup
      ∧ (∀ (id : Int) (net : FetchOutcome Unit), (ids (step s (.delete id net))).Nodup)
      ∧ (∀ net : FetchOutcome ApiUser, net.failed = true →
          (ids (step s (.submit net))).Nodup)
      ∧ (∀ ok : Bool, (ids (step s (.submit (.resolved { ok := ok, json := none })))).Nodup)
      ∧ (∀ apiUser : ApiUser, s.editingUser = none → apiUser.id ∉ ids s →
          (ids (step s (.submit (succeeded apiUser)))).Nodup)
      ∧ (∀ (R : UserRecord) (apiUser : ApiUser), s.editingUser = some R →
          (apiUser.id = R.id ∨ apiUser.id ∉ ids s) →
          (ids (step s (.submit (succeeded apiUser)))).Nodup) := by
  refine ⟨fun _ => hs, hs, ?_, ?_, ?_, ?_, ?_⟩
  · intro id net
    exact List.Nodup.sublist ((users_handleDelete_sublist s id net).map _) hs
  · intro net hnet
    simp only [step, failed_handleSubmit s net hnet]
    exact hs
  · intro ok
    simp only [step, ids, users_handleSubmit_no_body]
    exact hs
  · intro apiUser hnone hfresh
    simp only [step, ids, users_create s apiUser hnone, List.map_append, List.map_cons,
      List.map_nil]
    apply List.Nodup.append hs (List.nodup_singleton _)
    intro i hi hi2
    rw [List.mem_singleton] at hi2
    subst hi2
    exact hfresh hi
  · intro R apiUser hR hid
    simp only [step, ids, users_update s R apiUser hR, ids_update]
    exact nodup_replace_id _ R.id apiUser.id hs hid

/-- C6 (amended) at the initial list of one record, creating a record that
receives a new id. -/
theorem C6_ids_stay_distinct_witness :
    (ids (step { initialState with users := [⟨1, "a", "a@x", "2001-01-01", []⟩] }
          (.submit (succeeded ⟨11, "b", "b@x", none, []⟩)))).Nodup :=
  (C6_ids_stay_distinct
      { initialState with users := [⟨1, "a", "a@x", "2001-01-01", []⟩] }
      (by decide)).2.2.2.2.2.1 ⟨11, "b", "b@x", none, []⟩ rfl (by decide)

/-- C7, as stated, fails: with the list `[R]`, `R.id = 1`, and `R` the editing
target, a successful update whose response carries id 2 puts a record with id
2 at the position of `R`. -/
theorem C7_id_changed_by_update :
    ({ initialState with
        users := [⟨1, "a", "a@x", "2001-01-01", []⟩],
        editingUser := some ⟨1, "a", "a@x", "2001-01-01", []⟩ } : AppState).users[0]?
        = some ⟨1, "a", "a@x", "2001-01-01", []⟩
      ∧ ((handleSubmit
            { initialState with
              users := [⟨1, "a", "a@x", "2001-01-01", []⟩],
              editingUser := some ⟨1, "a", "a@x", "2001-01-01", []⟩ }
            (succeeded ⟨2, "a", "a@x", none, []⟩)).users[0]?).map (fun user => user.id)
          = some 2
      ∧ ((handleSubmit
            { initialState with
              users := [⟨1, "a", "a@x", "2001-01-01", []⟩],
              editingUser := some ⟨1, "a", "a@x", "2001-01-01", []⟩ }
            (succeeded ⟨2, "a", "a@x", none, []⟩)).users[0]?).map (fun user => user.id)
          ≠ some 1 := by
  refine ⟨rfl, rfl, ?_⟩
  decide

/-- C7, amended: when the editing target `R` is in the list at position `i`,
after a successful update the record at position `i` has the id of the update
response; it has `R.id` whenever the response carries `R.id`. -/
theorem C7_id_after_update (s : AppState) (R : UserRecord) (apiUser : ApiUser) (i : Nat)
    (hR : s.editingUser = some R) (hi : s.users[i]? = some R) :
    ((handleSubmit s (succeeded apiUser)).users[i]?).map (fun user => user.id)
        = some apiUser.id
      ∧ (apiUser.id = R.id →
          ((handleSubmit s (succeeded apiUser)).users[i]?).map (fun user => user.id)
            = some R.id) := by
  have h : ((handleSubmit s (succeeded apiUser)).users[i]?).map (fun user => user.id)
      = some apiUser.id := by
    rw [users_update s R apiUser hR, List.getElem?_map, hi]
    simp [withDateOfBirth]
  exact ⟨h, fun heq => heq ▸ h⟩

/-- C7 (amended) at a two-record list whose second record is edited and echoed. -/
theorem C7_id_after_update_witness :
    ((handleSubmit
        { initialState with
          users := [⟨1, "a", "a@x", "2001-01-01", []⟩, ⟨2, "b", "b@x", "2001-01-01", []⟩],
          editingUser := some ⟨2, "b", "b@x", "2001-01-01", []⟩ }
        (succeeded ⟨2, "n", "e", none, []⟩)).users[1]?).map (fun user => user.id)
      = some 2 :=
  (C7_id_after_update
      { initialState with
        users := [⟨1, "a", "a@x", "2001-01-01", []⟩, ⟨2, "b", "b@x", "2001-01-01", []⟩],
        editingUser := some ⟨2, "b", "b@x", "2001-01-01", []⟩ }
      ⟨2, "b", "b@x", "2001-01-01", []⟩ ⟨2, "n", "e", none, []⟩ 1 rfl rfl).1

/-- C8: `handleEdit(R)` sets the editing target to `R` and the form draft to
the `name`, `email` and `dateOfBirth` of `R`, leaves the user list and the
notification as they were, and issues no network request. -/
theorem C8_handleEdit_seeds_form (s : AppState) (R : UserRecord) :
    (handleEdit s R).editingUser = some R
      ∧ (handleEdit s R).name = R.name
      ∧ (handleEdit s R).email = R.email
      ∧ (handleEdit s R).dateOfBirth = R.dateOfBirth
      ∧ (handleEdit s R).users = s.users
      ∧ (handleEdit s R).alert = s.alert
      ∧ step s (.edit R) = handleEdit s R
      ∧ requests s (.edit R) = [] := by
  refine ⟨rfl, rfl, rfl, ?_, rfl, rfl, rfl, rfl⟩
  show (if R.dateOfBirth = "" then "" else R.dateOfBirth) = R.dateOfBirth
  split
  · next h => exact h.symm
  · rfl

/-- C9: after a successful `handleSubmit`, in create mode or in update mode,
the form draft is empty (`name`, `email` and `dateOfBirth` are `""`), the
editing target is absent and the notification is one alert of type success. -/
theorem C9_submit_success_resets_form (s : AppState) (apiUser : ApiUser) :
    (handleSubmit s (succeeded apiUser)).name = ""
      ∧ (handleSubmit s (succeeded apiUser)).email = ""
      ∧ (handleSubmit s (succeeded apiUser)).dateOfBirth = ""
      ∧ (handleSubmit s (succeeded apiUser)).editingUser = none
      ∧ successAlert (handleSubmit s (succeeded apiUser)) := by
  cases h : s.editingUser <;> simp [handleSubmit, succeeded, h, successAlert]

/-- C10: a successful `handleDelete(id)` leaves the editing target and the form
draft as they were; when the editing target has the deleted id, the target is
still set, the next submit is still the update request, and no record of the
list has the target's id. And when no record of the list has the id of the
editing target, a successful update leaves the list as it was, sets a success
alert and clears the editing target and the form draft. -/
theorem C10_stale_editing_target (s : AppState) (id : Int) (body : Option Unit)
    (apiUser : ApiUser) :
    ((handleDelete s id (deleted body)).editingUser = s.editingUser
        ∧ (handleDelete s id (deleted body)).name = s.name
        ∧ (handleDelete s id (deleted body)).email = s.email
        ∧ (handleDelete s id (deleted body)).dateOfBirth = s.dateOfBirth)
      ∧ (∀ R : UserRecord, s.editingUser = some R → R.id = id →
          (handleDelete s id (deleted body)).editingUser = some R
          ∧ (handleSubmitRequest (handleDelete s id (deleted body))).method = "PUT"
          ∧ ∀ user ∈ (handleDelete s id (deleted body)).users, user.id ≠ R.id)
      ∧ (∀ R : UserRecord, s.editingUser = some R →
          (∀ user ∈ s.users, user.id ≠ R.id) →
          (handleSubmit s (succeeded apiUser)).users = s.users
          ∧ successAlert (handleSubmit s (succeeded apiUser))
          ∧ (handleSubmit s (succeeded apiUser)).editingUser = none
          ∧ (handleSubmit s (succeeded apiUser)).name = ""
          ∧ (handleSubmit s (succeeded apiUser)).email = ""
          ∧ (handleSubmit s (succeeded apiUser)).dateOfBirth = "") := by
  have hd : handleDelete s id (deleted body)
      = { s with
          users := s.users.filter (fun user => user.id ≠ id),
          alert := some { message := "User deleted successfully (simulated)",
                          type := "success" } } := by
    simp [handleDelete, deleted]
  refine ⟨by simp [hd], ?_, ?_⟩
  · intro R hR hid
    rw [hd]
    refine ⟨hR, by simp [handleSubmitRequest, hR], ?_⟩
    intro user hmem
    have := (List.mem_filter.mp hmem).2
    subst hid
    simpa using this
  · intro R hR hnone
    refine ⟨?_, by simp [handleSubmit, succeeded, hR, successAlert],
      by simp [handleSubmit, succeeded, hR], by simp [handleSubmit, succeeded, hR],
      by simp [handleSubmit, succeeded, hR], by simp [handleSubmit, succeeded, hR]⟩
    rw [users_update s R apiUser hR]
    conv_rhs => rw [← List.map_id s.users]
    apply List.map_congr_left
    intro user hmem
    simp [hnone user hmem]

/-- C10 at a one-record list whose record is being edited and is then deleted,
and at the resulting state, where an update finds no record to replace. -/
theorem C10_stale_editing_target_witness :
    ((handleDelete
        { initialState with
          users := [⟨1, "a", "a@x", "2001-01-01", []⟩],
          editingUser := some ⟨1, "a", "a@x", "2001-01-01", []⟩ }
        1 (deleted none)).editingUser = some ⟨1, "a", "a@x", "2001-01-01", []⟩)
      ∧ (handleSubmit
          { initialState with
            users := [],
            editingUser := some ⟨1, "a", "a@x", "2001-01-01", []⟩ }
          (succeeded ⟨1, "n", "e", none, []⟩)).users = [] :=
  ⟨((C10_stale_editing_target
      { initialState with
        users := [⟨1, "a", "a@x", "2001-01-01", []⟩],
        editingUser := some ⟨1, "a", "a@x", "2001-01-01", []⟩ }
      1 none ⟨1, "n", "e", none, []⟩).2.1 ⟨1, "a", "a@x", "2001-01-01", []⟩ rfl rfl).1,
   ((C10_stale_editing_target
      { initialState with
        users := [],
        editingUser := some ⟨1, "a", "a@x", "2001-01-01", []⟩ }
      1 none ⟨1, "n", "e", none, []⟩).2.2 ⟨1, "a", "a@x", "2001-01-01", []⟩ rfl
      (by simp [initialState])).1⟩

end UserManagement
